import Mathlib

/-!
Shallow embedding of the demand-execution scaffolding subsystem of
`aibs-informatics-aws-lambda` (handlers/demand/scaffolding.py and
handlers/demand/model.py), together with theorems checking the
natural-language specification against it.

External collaborators (EFS descriptor lookups, the pseudo-random
generator of Python's `random` module) are modelled as explicit
parameters: an `EfsEnv` of lookup functions and a `RandomModel`
with explicit generator state threaded through the computation.
-/

namespace AwsLambdaDemand

/-- Python truthiness of an optional string: `None` and the empty string
are falsy, every other string is truthy.  Used wherever the source tests
an optional string field with `if x:`. -/
def strTruthy : Option String → Bool
  | none => false
  | some s => !s.isEmpty

/-- Embeds `FileSystemConfiguration` from handlers/demand/model.py:
three optional string fields, all defaulting to `None`. -/
structure FileSystemConfiguration where
  file_system : Option String := none
  access_point : Option String := none
  container_path : Option String := none
deriving DecidableEq, Repr, Inhabited

/-- Embeds `FileSystemSelectionStrategy` from handlers/demand/model.py. -/
inductive FileSystemSelectionStrategy where
  | RANDOM
  | LEAST_UTILIZED
deriving DecidableEq, Repr, Inhabited

/-- Python exceptions that `select_file_system` can raise.
`invalidInput` stands for `ValueError`, `indexError` for `IndexError`
(indexing an empty list), `keyError` for `KeyError` (missing dict key). -/
inductive SelectError where
  | invalidInput (msg : String)
  | indexError
  | keyError
deriving DecidableEq, Repr

/-- External EFS lookup collaborators, as consumed by the source:
`fsUsedBytes i` is `get_efs_file_system(i)["SizeInBytes"]["Value"]`, and
`apFileSystemId a` is `get_efs_access_point(a).get("FileSystemId")`
(which may be absent, hence `Option`). -/
structure EfsEnv where
  fsUsedBytes : String → Nat
  apFileSystemId : String → Option String

/-- Model of Python's module-level pseudo-random generator: `seedFn s`
is the generator state after `random.seed(s)`, and `randbelow st n`
returns the index drawn by `random.choice` on a sequence of length `n`
together with the successor state. -/
structure RandomModel where
  seedFn : String → Nat
  randbelow : Nat → Nat → Nat × Nat

/-- One iteration of the resolution loop in the LEAST_UTILIZED branch of
`select_file_system`, as it rewrites a configuration: a configuration
with a truthy `file_system` is kept as is; otherwise, with a truthy
`access_point`, its `file_system` is overwritten with the access point's
`FileSystemId`; otherwise the loop raises, so the value is irrelevant. -/
def mutateConfig (env : EfsEnv) (c : FileSystemConfiguration) : FileSystemConfiguration :=
  if strTruthy c.file_system then c
  else if strTruthy c.access_point then
    { c with file_system := env.apFileSystemId (c.access_point.getD "") }
  else c

/-- Embeds the resolution loop of the LEAST_UTILIZED branch of
`select_file_system` (scaffolding.py): walks the configurations in
order, resolving `file_system` from `access_point` where needed and
accumulating the keys of `fs_id_to_description` (the ids whose
descriptions were fetched); raises `ValueError` when a configuration
has neither a truthy file-system id nor a truthy access-point id. -/
def resolveLoop (env : EfsEnv) (acc : List String) :
    List FileSystemConfiguration →
    Except SelectError (List FileSystemConfiguration × List String)
  | [] => .ok ([], acc)
  | c :: rest =>
    if strTruthy c.file_system then
      let fsid := c.file_system.getD ""
      let acc' := if fsid ∈ acc then acc else acc ++ [fsid]
      (resolveLoop env acc' rest).map (fun p => (c :: p.1, p.2))
    else if strTruthy c.access_point then
      let fsid? := env.apFileSystemId (c.access_point.getD "")
      let c' := { c with file_system := fsid? }
      let acc' :=
        if strTruthy fsid? ∧ fsid?.getD "" ∉ acc then acc ++ [fsid?.getD ""] else acc
      (resolveLoop env acc' rest).map (fun p => (c' :: p.1, p.2))
    else
      .error (.invalidInput
        "Neither file system ID nor access point ID provided for file system configuration")

/-- Python's `sorted` with a `Nat`-valued key: a stable sort by the key.
Python's sort is specified as stable, so any stable sorting algorithm is
extensionally equal; we use insertion sort. -/
def sortByKey {α : Type} (key : α → Nat) (l : List α) : List α :=
  l.insertionSort (fun a b => key a ≤ key b)

/-- The first element of a list attaining the minimal key (ties broken in
favour of the earlier element); `none` on the empty list.  Specification
function for the head of a stable sort. -/
def firstMinByKey {α : Type} (key : α → Nat) : List α → Option α
  | [] => none
  | a :: rest =>
    match firstMinByKey key rest with
    | none => some a
    | some b => some (if key a ≤ key b then a else b)

/-- Embeds `select_file_system` from handlers/demand/scaffolding.py.
The external EFS lookups, the pseudo-random generator model and its
current state are explicit parameters; the generator state is returned
alongside the selected configuration.  The empty dict-membership check
before sorting models the fact that Python's `sorted` computes
`fs_id_to_description[...]` for every filtered element (raising
`KeyError` when an id was never fetched) before returning. -/
def select_file_system (env : EfsEnv) (rm : RandomModel)
    (file_system_configurations : List FileSystemConfiguration)
    (selection_strategy : FileSystemSelectionStrategy)
    (seed_number : Option String) (prg : Nat) :
    Except SelectError (FileSystemConfiguration × Nat) :=
  if file_system_configurations.length = 0 then
    .error (.invalidInput "No file system configurations provided")
  else if file_system_configurations.length = 1 then
    .ok (file_system_configurations.getD 0 {}, prg)
  else
    match selection_strategy with
    | .RANDOM =>
      let s := match seed_number with
        | some sd => rm.seedFn sd
        | none => prg
      let is' := rm.randbelow s file_system_configurations.length
      match file_system_configurations.get? is'.1 with
      | some c => .ok (c, is'.2)
      | none => .error .indexError
    | .LEAST_UTILIZED =>
      match resolveLoop env [] file_system_configurations with
      | .error e => .error e
      | .ok (resolved, fetched) =>
        let filtered := resolved.filter (fun c => c.file_system.isSome)
        if filtered.all (fun c => c.file_system.getD "" ∈ fetched) then
          match sortByKey (fun c => env.fsUsedBytes (c.file_system.getD "")) filtered with
          | [] => .error .indexError
          | c :: _ => .ok (c, prg)
        else .error .keyError

/-- Embeds `DemandFileSystemConfigurations` from handlers/demand/model.py
(the dataclass fields, in declaration order). -/
structure DemandFileSystemConfigurations where
  shared : List FileSystemConfiguration
  scratch : List FileSystemConfiguration
  tmp : List FileSystemConfiguration := []
  selection_strategy : FileSystemSelectionStrategy := .RANDOM
deriving DecidableEq, Repr

/-- Embeds construction of `DemandFileSystemConfigurations` including its
`__post_init__` validation: raises `ValueError` (modelled as `.error`)
when the shared list is empty, then when the scratch list is empty. -/
def DemandFileSystemConfigurations.mk? (shared scratch tmp : List FileSystemConfiguration)
    (selection_strategy : FileSystemSelectionStrategy) :
    Except String DemandFileSystemConfigurations :=
  if shared.isEmpty then .error "Shared file system configuration is required"
  else if scratch.isEmpty then .error "Scratch file system configuration is required"
  else .ok { shared := shared, scratch := scratch, tmp := tmp,
             selection_strategy := selection_strategy }

/-- The part of the `DemandExecution` aggregate that the scaffolding
volume-selection code reads: the execution id used as the random seed. -/
structure DemandExecution where
  execution_id : String
deriving DecidableEq, Repr

/-- The part of `PrepareDemandScaffoldingRequest` read by the
volume-selection section of `PrepareDemandScaffoldingHandler.handle`. -/
structure PrepareDemandScaffoldingRequest where
  file_system_configurations : DemandFileSystemConfigurations
  demand_execution : DemandExecution
deriving DecidableEq, Repr

/-- External collaborator `MountPointConfiguration.build` from
aibs_informatics_aws_utils: modelled as a record of the search criteria
the source supplies to it (ids or env-scoped tags). -/
structure MountPointConfiguration where
  mount_point : String
  access_point : Option String
  file_system : Option String
  access_point_tags : List (String × String)
  file_system_tags : List (String × String)
deriving DecidableEq, Repr

/-- Modelled from the spec: `BatchEFSConfiguration` lives in
handlers/demand/context_manager.py, which is not under src/; its
constructor keyword arguments at the call site in scaffolding.py and the
spec's `MountSpec` (mount specification plus read-only flag) give these
fields. -/
structure BatchEFSConfiguration where
  mount_point_config : MountPointConfiguration
  read_only : Bool
deriving DecidableEq, Repr

/-- Embeds `construct_batch_efs_configuration` from scaffolding.py:
builds the mount-point search criteria (env-base tags on both lookups)
and wraps them with the read-only flag. -/
def construct_batch_efs_configuration (env_base : String) (container_path : String)
    (file_system : Option String) (access_point : Option String) ( read_only : Bool) :
    BatchEFSConfiguration :=
  { mount_point_config :=
      { mount_point := container_path
        access_point := access_point
        file_system := file_system
        access_point_tags := [("env_base", env_base)]
        file_system_tags := [("env_base", env_base)] }
    read_only := read_only }

/-- External constant `EFS_SCRATCH_PATH` from aibs_informatics_aws_utils;
the handler's default scratch container path is `"/opt/efs" ++ EFS_SCRATCH_PATH`,
which the spec and tests fix as `/opt/efs/scratch`. -/
def EFS_SCRATCH_PATH : String := "/scratch"

/-- External constant `EFS_SHARED_PATH` from aibs_informatics_aws_utils
(default shared container path `/opt/efs/shared`). -/
def EFS_SHARED_PATH : String := "/shared"

/-- External constant `EFS_TMP_PATH` from aibs_informatics_aws_utils
(default tmp container path `/opt/efs/tmp`). -/
def EFS_TMP_PATH : String := "/tmp"

/-- Embeds the volume-selection and mount-construction section of
`PrepareDemandScaffoldingHandler.handle` (scaffolding.py): select the
scratch file system (seeded with the execution id), build its EFS
configuration read-write with default container path
`/opt/efs/scratch`; then likewise the shared file system, read-only,
default `/opt/efs/shared`; then, when the `tmp` list is truthy
(non-empty), likewise the tmp file system, read-write, default
`/opt/efs/tmp`.  The generator state is threaded through the calls in
program order. -/
def handleVolumeConfigurations (env : EfsEnv) (rm : RandomModel) (env_base : String)
    (request : PrepareDemandScaffoldingRequest) (prg : Nat) :
    Except SelectError
      ((BatchEFSConfiguration × BatchEFSConfiguration × Option BatchEFSConfiguration) × Nat) :=
  match select_file_system env rm request.file_system_configurations.scratch
      request.file_system_configurations.selection_strategy
      (some request.demand_execution.execution_id) prg with
  | .error e => .error e
  | .ok (scratch_fs_config, prg1) =>
    let scratch_vol_configuration := construct_batch_efs_configuration env_base
      (if strTruthy scratch_fs_config.container_path then
        scratch_fs_config.container_path.getD ""
       else "/opt/efs" ++ EFS_SCRATCH_PATH)
      scratch_fs_config.file_system scratch_fs_config.access_point false
    match select_file_system env rm request.file_system_configurations.shared
        request.file_system_configurations.selection_strategy
        (some request.demand_execution.execution_id) prg1 with
    | .error e => .error e
    | .ok (shared_fs_config, prg2) =>
      let shared_vol_configuration := construct_batch_efs_configuration env_base
        (if strTruthy shared_fs_config.container_path then
          shared_fs_config.container_path.getD ""
         else "/opt/efs" ++ EFS_SHARED_PATH)
        shared_fs_config.file_system shared_fs_config.access_point true
      if request.file_system_configurations.tmp.isEmpty then
        .ok ((scratch_vol_configuration, shared_vol_configuration, none), prg2)
      else
        match select_file_system env rm request.file_system_configurations.tmp
            request.file_system_configurations.selection_strategy
            (some request.demand_execution.execution_id) prg2 with
        | .error e => .error e
        | .ok (tmp_fs_config, prg3) =>
          let tmp_vol_configuration := construct_batch_efs_configuration env_base
            (if strTruthy tmp_fs_config.container_path then
              tmp_fs_config.container_path.getD ""
             else "/opt/efs" ++ EFS_TMP_PATH)
            tmp_fs_config.file_system tmp_fs_config.access_point false
          .ok ((scratch_vol_configuration, shared_vol_configuration,
                some tmp_vol_configuration), prg3)

/-- Embeds `EnvFileWriteMode` from handlers/demand/model.py. -/
inductive EnvFileWriteMode where
  | NEVER
  | ALWAYS
  | IF_REQUIRED
deriving DecidableEq, Repr

/-- Result of environment materialization: the final inline container
environment, an optional command prelude (the instruction sourcing the
environment file), whether a file was written, and the written file's
path and content when one was. -/
structure MaterializeResult where
  final_env : List (String × String)
  cmdPrelude : Option (List String)
  file_written : Bool
  written_file : Option (String × String)
deriving DecidableEq, Repr

/-- One `export NAME="VALUE"` line of the environment file. -/
def exportLine (p : String × String) : String :=
  "export " ++ p.1 ++ "=\x22" ++ p.2 ++ "\x22"

/-- Modelled from the spec: the environment materialization of
`DemandExecutionContextManager` (handlers/demand/context_manager.py) is
not under src/, so this follows §4.3 of the spec.  `EXECUTION_ID` is
always injected before applying mode logic (inline for NEVER, as the
first file export line for ALWAYS).  NEVER returns the environment
inline with no prelude and no file.  ALWAYS writes every variable as an
`export NAME="VALUE"` line, in insertion order, to `.demand.env` under
the shared working path, keeps only the `_ENVIRONMENT_FILE` pointer
inline, and sources the file in the command prelude.  IF_REQUIRED
computes the serialized size of the variables via the supplied size
function `sz` and behaves like NEVER when it is under 8192 bytes,
otherwise like ALWAYS.  The exact byte accounting of the serialization
is left abstract in `sz`, as the spec fixes the threshold but flags the
per-variable encoding overhead as matching observed platform behavior. -/
def materialize (sz : List (String × String) → Nat) (execId : String)
    (env : List (String × String)) (mode : EnvFileWriteMode)
    (shared_working_path : String) : MaterializeResult :=
  let fullEnv : List (String × String) := ("EXECUTION_ID", execId) :: env
  match mode with
  | .NEVER =>
    { final_env := fullEnv
      cmdPrelude := none
      file_written := false
      written_file := none }
  | .ALWAYS =>
    let filePath := shared_working_path ++ "/.demand.env"
    { final_env := [("_ENVIRONMENT_FILE", filePath)]
      cmdPrelude := some [". ${_ENVIRONMENT_FILE}"]
      file_written := true
      written_file := some (filePath, String.intercalate "\n" (fullEnv.map exportLine)) }
  | .IF_REQUIRED =>
    if sz fullEnv < 8192 then
      { final_env := fullEnv
        cmdPrelude := none
        file_written := false
        written_file := none }
    else
      let filePath := shared_working_path ++ "/.demand.env"
      { final_env := [("_ENVIRONMENT_FILE", filePath)]
        cmdPrelude := some [". ${_ENVIRONMENT_FILE}"]
        file_written := true
        written_file := some (filePath, String.intercalate "\n" (fullEnv.map exportLine)) }

/-- The used-bytes value that the LEAST_UTILIZED branch associates with a
candidate: the size of the file system it carries or resolves to. -/
def usedBytesOf (env : EfsEnv) (c : FileSystemConfiguration) : Nat :=
  env.fsUsedBytes ((mutateConfig env c).file_system.getD "")

/-- The list index chosen by the seeded RANDOM strategy on a list of
length `n`: the single-candidate shortcut picks index 0, otherwise the
index drawn by the freshly seeded generator. -/
def chosenIndex (rm : RandomModel) (sd : String) (n : Nat) : Nat :=
  if n = 1 then 0 else (rm.randbelow (rm.seedFn sd) n).1

/-- Concrete EFS environment used by the witnesses: `fs-a` reports 2000
used bytes, every other file system 1000; access-point descriptors carry
no `FileSystemId`. -/
def envW : EfsEnv :=
  { fsUsedBytes := fun s => if s = "fs-a" then 2000 else 1000
    apFileSystemId := fun _ => none }

/-- Concrete pseudo-random generator model used by the witnesses. -/
def rmW : RandomModel :=
  { seedFn := fun s => s.length
    randbelow := fun st n => (st % n, st + 1) }

/-- Witness candidate carrying file system `fs-a` (2000 used bytes in `envW`). -/
def cfgA : FileSystemConfiguration := { file_system := some "fs-a" }

/-- Witness candidate carrying file system `fs-b` (1000 used bytes in `envW`). -/
def cfgB : FileSystemConfiguration := { file_system := some "fs-b" }

/-- Witness candidate carrying file system `fs-c` (1000 used bytes in `envW`). -/
def cfgC : FileSystemConfiguration := { file_system := some "fs-c" }

/-- Witness candidate carrying only an access-point id. -/
def cfgApOnly1 : FileSystemConfiguration := { access_point := some "fsap-1" }

/-- Witness candidate carrying only an access-point id. -/
def cfgApOnly2 : FileSystemConfiguration := { access_point := some "fsap-2" }

/-- Witness candidate with neither a file-system nor an access-point id. -/
def cfgNone : FileSystemConfiguration := {}

/-- Witness scaffolding request with single-candidate lists. -/
def reqW : PrepareDemandScaffoldingRequest :=
  { file_system_configurations :=
      { shared := [cfgB], scratch := [cfgA], tmp := [], selection_strategy := .RANDOM }
    demand_execution := { execution_id := "exec-1" } }

/-- Witness scaffolding request whose scratch and shared candidate lists
are the same two-element list, under the RANDOM strategy. -/
def reqW2 : PrepareDemandScaffoldingRequest :=
  { file_system_configurations :=
      { shared := [cfgA, cfgB], scratch := [cfgA, cfgB], tmp := [],
        selection_strategy := .RANDOM }
    demand_execution := { execution_id := "exec-1" } }

theorem firstMinByKey_eq_none {α : Type} (key : α → Nat) (l : List α) :
    firstMinByKey key l = none ↔ l = [] := by
  cases l with
  | nil => simp [firstMinByKey]
  | cons a rest =>
    simp only [firstMinByKey]
    cases firstMinByKey key rest <;> simp

theorem orderedInsert_head? {α : Type} (key : α → Nat) (a : α) (s : List α) :
    (List.orderedInsert (fun x y => key x ≤ key y) a s).head? =
      some (match s.head? with
            | none => a
            | some b => if key a ≤ key b then a else b) := by
  cases s with
  | nil => rfl
  | cons b t =>
    simp only [List.orderedInsert, List.head?_cons]
    by_cases h : key a ≤ key b <;> simp [h]

theorem sortByKey_head? {α : Type} (key : α → Nat) (l : List α) :
    (sortByKey key l).head? = firstMinByKey key l := by
  induction l with
  | nil => rfl
  | cons a l ih =>
    show (List.orderedInsert _ a (sortByKey key l)).head? = _
    rw [orderedInsert_head?]
    simp only [firstMinByKey, ← ih]
    cases (sortByKey key l).head? <;> simp

theorem firstMinByKey_spec {α : Type} (key : α → Nat) :
    ∀ (l : List α) (m : α), firstMinByKey key l = some m →
      ∃ i, l.get? i = some m ∧ (∀ x ∈ l, key m ≤ key x) ∧
        (∀ j x, j < i → l.get? j = some x → key m < key x)
  | [], m, h => by simp [firstMinByKey] at h
  | a :: l, m, h => by
    rcases hl : firstMinByKey key l with _ | b
    · have hnil : l = [] := (firstMinByKey_eq_none key l).mp hl
      subst hnil
      simp only [firstMinByKey] at h
      obtain rfl : a = m := by simpa using h
      refine ⟨0, rfl, ?_, ?_⟩
      · intro x hx
        obtain rfl : x = a := by simpa using hx
        exact Nat.le_refl _
      · intro j x hj
        omega
    · have hm : m = if key a ≤ key b then a else b := by
        simp only [firstMinByKey, hl] at h
        exact (Option.some_inj.mp h).symm
      obtain ⟨i', hget, hmin, hlt⟩ := firstMinByKey_spec key l b hl
      by_cases hab : key a ≤ key b
      · subst hm
        rw [if_pos hab]
        refine ⟨0, rfl, ?_, ?_⟩
        · intro x hx
          rcases List.mem_cons.mp hx with rfl | hx
          · exact Nat.le_refl _
          · exact Nat.le_trans hab (hmin x hx)
        · intro j x hj
          omega
      · have hba : key b < key a := Nat.lt_of_not_le hab
        subst hm
        rw [if_neg hab]
        refine ⟨i' + 1, by simpa using hget, ?_, ?_⟩
        · intro x hx
          rcases List.mem_cons.mp hx with rfl | hx
          · exact Nat.le_of_lt hba
          · exact hmin x hx
        · intro j x hj hx
          cases j with
          | zero =>
            obtain rfl : a = x := by simpa using hx
            exact hba
          | succ j' =>
            exact hlt j' x (Nat.lt_of_succ_lt_succ hj) (by simpa using hx)

theorem strTruthy_some {s : String} (h : ¬ s = "") : strTruthy (some s) = true := by
  show (!s.isEmpty) = true
  rw [Bool.not_eq_true', ← Bool.not_eq_true, String.isEmpty_iff]
  exact h

theorem strTruthy_ne_empty {s : String} (h : strTruthy (some s) = true) : ¬ s = "" := by
  rw [show strTruthy (some s) = !s.isEmpty from rfl, Bool.not_eq_true', ← Bool.not_eq_true,
    String.isEmpty_iff] at h
  exact h

theorem strTruthy_iff (o : Option String) :
    strTruthy o = true ↔ ∃ s, o = some s ∧ ¬ s = "" := by
  cases o with
  | none => simp [strTruthy]
  | some s =>
    constructor
    · intro h
      exact ⟨s, rfl, strTruthy_ne_empty h⟩
    · rintro ⟨t, ht, hne⟩
      obtain rfl : s = t := by simpa using ht
      exact strTruthy_some hne

theorem except_map_ok {ε α β : Type} (f : α → β) (e : Except ε α) (b : β)
    (h : e.map f = .ok b) : ∃ a, e = .ok a ∧ b = f a := by
  cases e with
  | error x => simp [Except.map] at h
  | ok a => exact ⟨a, rfl, by simpa [Except.map] using h.symm⟩

theorem resolveLoop_ok_map (env : EfsEnv) :
    ∀ (cfgs : List FileSystemConfiguration) (acc : List String)
      (cs : List FileSystemConfiguration) (fetched : List String),
      resolveLoop env acc cfgs = .ok (cs, fetched) → cs = cfgs.map (mutateConfig env)
  | [], acc, cs, fetched, h => by
    simp only [resolveLoop, Except.ok.injEq, Prod.mk.injEq] at h
    simp [← h.1]
  | c :: rest, acc, cs, fetched, h => by
    simp only [resolveLoop] at h
    split at h
    next h1 =>
      obtain ⟨⟨cs', f'⟩, hrec, hb⟩ := except_map_ok _ _ _ h
      obtain ⟨rfl, rfl⟩ := Prod.mk.injEq .. ▸ hb
      have := resolveLoop_ok_map env rest _ _ _ hrec
      simp [this, mutateConfig, h1]
    next h1 =>
      split at h
      next h2 =>
        obtain ⟨⟨cs', f'⟩, hrec, hb⟩ := except_map_ok _ _ _ h
        obtain ⟨rfl, rfl⟩ := Prod.mk.injEq .. ▸ hb
        have := resolveLoop_ok_map env rest _ _ _ hrec
        simp [this, mutateConfig, h1, h2]
      next h2 => simp at h

theorem resolveLoop_fetched (env : EfsEnv) :
    ∀ (cfgs : List FileSystemConfiguration) (acc : List String)
      (cs : List FileSystemConfiguration) (fetched : List String),
      resolveLoop env acc cfgs = .ok (cs, fetched) →
      (∀ id ∈ acc, id ∈ fetched) ∧
      (∀ c ∈ cs, ∀ id, c.file_system = some id → ¬ id = "" → id ∈ fetched)
  | [], acc, cs, fetched, h => by
    simp only [resolveLoop, Except.ok.injEq, Prod.mk.injEq] at h
    obtain ⟨rfl, rfl⟩ := h
    exact ⟨fun id hid => hid, by simp⟩
  | c :: rest, acc, cs, fetched, h => by
    simp only [resolveLoop] at h
    split at h
    next h1 =>
      obtain ⟨⟨cs', f'⟩, hrec, hb⟩ := except_map_ok _ _ _ h
      obtain ⟨rfl, rfl⟩ := Prod.mk.injEq .. ▸ hb
      obtain ⟨hacc, hcs⟩ := resolveLoop_fetched env rest _ _ _ hrec
      constructor
      · intro id hid
        apply hacc
        split
        · exact hid
        · exact List.mem_append_left _ hid
      · intro x hx id hxid hid
        rcases List.mem_cons.mp hx with rfl | hx
        · -- x = c, its truthy file_system id was added to the accumulator
          apply hacc
          split
          next hmem =>
            simpa [hxid] using hmem
          next hmem =>
            simp [hxid]
        · exact hcs x hx id hxid hid
    next h1 =>
      split at h
      next h2 =>
        obtain ⟨⟨cs', f'⟩, hrec, hb⟩ := except_map_ok _ _ _ h
        obtain ⟨rfl, rfl⟩ := Prod.mk.injEq .. ▸ hb
        obtain ⟨hacc, hcs⟩ := resolveLoop_fetched env rest _ _ _ hrec
        constructor
        · intro id hid
          apply hacc
          split
          · exact List.mem_append_left _ hid
          · exact hid
        · intro x hx id hxid hid
          rcases List.mem_cons.mp hx with rfl | hx
          · -- x is the rewritten configuration; its id came from the lookup
            apply hacc
            have hfs : env.apFileSystemId (c.access_point.getD "") = some id := by
              simpa using hxid
            rw [hfs]
            have htr : strTruthy (some id) = true := strTruthy_some hid
            split
            next hcond => simp
            next hcond =>
              by_contra hnot
              exact hcond ⟨htr, by simpa using hnot⟩
          · exact hcs x hx id hxid hid
      next h2 => simp at h

theorem except_map_error {ε α β : Type} (f : α → β) (e : Except ε α) (err : ε)
    (h : e.map f = .error err) : e = .error err := by
  cases e <;> simp_all [Except.map]

theorem resolveLoop_error_iff_missing (env : EfsEnv) :
    ∀ (cfgs : List FileSystemConfiguration) (acc : List String) (e : SelectError),
      resolveLoop env acc cfgs = .error e →
      e = .invalidInput
          "Neither file system ID nor access point ID provided for file system configuration" ∧
      ∃ c ∈ cfgs, strTruthy c.file_system = false ∧ strTruthy c.access_point = false
  | [], acc, e, h => by simp [resolveLoop] at h
  | c :: rest, acc, e, h => by
    simp only [resolveLoop] at h
    split at h
    next h1 =>
      have hrec := except_map_error _ _ _ h
      obtain ⟨hmsg, x, hx, hxf⟩ := resolveLoop_error_iff_missing env rest _ e hrec
      exact ⟨hmsg, x, List.mem_cons_of_mem c hx, hxf⟩
    next h1 =>
      split at h
      next h2 =>
        have hrec := except_map_error _ _ _ h
        obtain ⟨hmsg, x, hx, hxf⟩ := resolveLoop_error_iff_missing env rest _ e hrec
        exact ⟨hmsg, x, List.mem_cons_of_mem c hx, hxf⟩
      next h2 =>
        refine ⟨by simpa using h.symm, c, List.mem_cons_self c rest, ?_, ?_⟩
        · simpa using h1
        · simpa using h2

theorem resolveLoop_missing_error (env : EfsEnv) :
    ∀ (cfgs : List FileSystemConfiguration) (acc : List String),
      (∃ c ∈ cfgs, strTruthy c.file_system = false ∧ strTruthy c.access_point = false) →
      resolveLoop env acc cfgs = .error (.invalidInput
        "Neither file system ID nor access point ID provided for file system configuration")
  | [], acc, h => by simp at h
  | c :: rest, acc, ⟨x, hx, hxf, hxa⟩ => by
    rcases List.mem_cons.mp hx with rfl | hx
    · show resolveLoop env acc (x :: rest) = _
      simp only [resolveLoop, hxf, hxa]
      simp [strTruthy]
    · simp only [resolveLoop]
      split
      next h1 =>
        rw [resolveLoop_missing_error env rest _ ⟨x, hx, hxf, hxa⟩]
        rfl
      next h1 =>
        split
        next h2 =>
          rw [resolveLoop_missing_error env rest _ ⟨x, hx, hxf, hxa⟩]
          rfl
        next h2 => rfl

/-- C3: for every single-element candidate list `[c]`, every selection
strategy, every seed and every generator state, `select_file_system`
returns `c` with no error; the result does not depend on the EFS lookup
environment, so no external resolution is performed, and `c` may lack
both a file-system and an access-point id. -/
theorem select_file_system_single_candidate (env : EfsEnv) (rm : RandomModel)
    (c : FileSystemConfiguration) (selection_strategy : FileSystemSelectionStrategy)
    (seed_number : Option String) (prg : Nat) :
    select_file_system env rm [c] selection_strategy seed_number prg = .ok (c, prg) := rfl

/-- C2: two calls of `select_file_system` with the RANDOM strategy, the
same candidate list and the same seed `S` return the same candidate,
whatever the incoming generator states were: the generator is re-seeded
from `S` before choosing. -/
theorem select_file_system_random_deterministic (env : EfsEnv) (rm : RandomModel)
    (candidates : List FileSystemConfiguration) (S : String) (prg1 prg2 : Nat) :
    (select_file_system env rm candidates .RANDOM (some S) prg1).map (fun p => p.1) =
    (select_file_system env rm candidates .RANDOM (some S) prg2).map (fun p => p.1) := by
  by_cases h0 : candidates.length = 0
  · simp [select_file_system, h0]
  · by_cases h1 : candidates.length = 1
    · simp [select_file_system, h0, h1, Except.map]
    · simp [select_file_system, h0, h1]

/-- C4: `select_file_system` fails with `ValueError` (`invalidInput`) on
an empty candidate list under every strategy, and under LEAST_UTILIZED
with at least two candidates it fails with `ValueError` when some
candidate has neither a file-system id nor an access-point id. -/
theorem select_file_system_invalid_input (env : EfsEnv) (rm : RandomModel)
    (candidates : List FileSystemConfiguration) (seed_number : Option String) (prg : Nat) :
    (candidates = [] →
      ∀ strat, select_file_system env rm candidates strat seed_number prg =
        .error (.invalidInput "No file system configurations provided")) ∧
    (2 ≤ candidates.length →
      (∃ c ∈ candidates, c.file_system = none ∧ c.access_point = none) →
      select_file_system env rm candidates .LEAST_UTILIZED seed_number prg =
        .error (.invalidInput
          "Neither file system ID nor access point ID provided for file system configuration")) := by
  constructor
  · rintro rfl strat
    rfl
  · rintro hlen ⟨c, hc, hcf, hca⟩
    have h0 : ¬ candidates.length = 0 := by omega
    have h1 : ¬ candidates.length = 1 := by omega
    simp only [select_file_system, if_neg h0, if_neg h1]
    rw [resolveLoop_missing_error env candidates []
      ⟨c, hc, by simp [hcf, strTruthy], by simp [hca, strTruthy]⟩]

/-- C4 witness: the empty list fails with `ValueError` under RANDOM, and
a two-element list whose members carry no ids fails with `ValueError`
under LEAST_UTILIZED. -/
theorem select_file_system_invalid_input_witness :
    select_file_system envW rmW [] .RANDOM none 0 =
      .error (.invalidInput "No file system configurations provided") ∧
    select_file_system envW rmW [cfgNone, cfgNone] .LEAST_UTILIZED none 0 =
      .error (.invalidInput
        "Neither file system ID nor access point ID provided for file system configuration") :=
  ⟨(select_file_system_invalid_input envW rmW [] none 0).1 rfl .RANDOM,
   (select_file_system_invalid_input envW rmW [cfgNone, cfgNone] none 0).2 (by decide)
     ⟨cfgNone, by simp, rfl, rfl⟩⟩

/-- C5: constructing a `DemandFileSystemConfigurations` with an empty
shared or empty scratch list raises `ValueError` at construction, so no
value with an empty scratch list ever reaches the handler (all-or-nothing:
the request fails before any job specification or sync request exists);
conversely every constructed value has non-empty shared and scratch
lists. -/
theorem demand_fs_configurations_validation (shared scratch tmp : List FileSystemConfiguration)
    (strat : FileSystemSelectionStrategy) :
    ((shared = [] ∨ scratch = []) →
      ∃ msg, DemandFileSystemConfigurations.mk? shared scratch tmp strat = .error msg) ∧
    (∀ d, DemandFileSystemConfigurations.mk? shared scratch tmp strat = .ok d →
      ¬ d.shared = [] ∧ ¬ d.scratch = []) := by
  constructor
  · rintro (rfl | rfl)
    · exact ⟨_, rfl⟩
    · unfold DemandFileSystemConfigurations.mk?
      split
      next => exact ⟨_, rfl⟩
      next => exact ⟨_, rfl⟩
  · intro d hd
    unfold DemandFileSystemConfigurations.mk? at hd
    split at hd
    next => simp at hd
    next h1 =>
      split at hd
      next => simp at hd
      next h2 =>
        obtain rfl : d = ⟨shared, scratch, tmp, strat⟩ := by
          simpa using hd.symm
        constructor
        · simpa [List.isEmpty_iff] using h1
        · simpa [List.isEmpty_iff] using h2

/-- C5 witness: an empty scratch list is rejected at construction. -/
theorem demand_fs_configurations_validation_witness :
    ∃ msg, DemandFileSystemConfigurations.mk? [cfgA] [] [] .RANDOM = .error msg :=
  (demand_fs_configurations_validation [cfgA] [] [] .RANDOM).1 (Or.inr rfl)

/-- C7: with the IF_REQUIRED mode, `materialize` behaves exactly like
NEVER (no file written, `file_written = false`, no command prelude) when
the serialized size of the variables is under 8192 bytes, and exactly
like ALWAYS (file written under `.demand.env`, `file_written = true`,
prelude sourcing the file) when the size is 8192 bytes or more. -/
theorem materialize_if_required_threshold (sz : List (String × String) → Nat)
    (execId : String) (env : List (String × String)) (p : String) :
    (sz (("EXECUTION_ID", execId) :: env) < 8192 →
      materialize sz execId env .IF_REQUIRED p = materialize sz execId env .NEVER p ∧
      (materialize sz execId env .IF_REQUIRED p).file_written = false ∧
      (materialize sz execId env .IF_REQUIRED p).cmdPrelude = none ∧
      (materialize sz execId env .IF_REQUIRED p).written_file = none) ∧
    (8192 ≤ sz (("EXECUTION_ID", execId) :: env) →
      materialize sz execId env .IF_REQUIRED p = materialize sz execId env .ALWAYS p ∧
      (materialize sz execId env .IF_REQUIRED p).file_written = true ∧
      (materialize sz execId env .IF_REQUIRED p).cmdPrelude = some [". ${_ENVIRONMENT_FILE}"] ∧
      ∃ content, (materialize sz execId env .IF_REQUIRED p).written_file =
        some (p ++ "/.demand.env", content)) := by
  constructor
  · intro h
    simp [materialize, h]
  · intro h
    have hlt : ¬ sz (("EXECUTION_ID", execId) :: env) < 8192 := by omega
    simp [materialize, hlt]

/-- C7 witness: with a size function counting 10000 bytes per variable,
a singleton environment is over the threshold and materializes the file,
while with a size function counting one byte per variable it is under
the threshold and behaves like NEVER. -/
theorem materialize_if_required_threshold_witness :
    (materialize (fun l => l.length) "e" [("A", "a")] .IF_REQUIRED "/w" =
      materialize (fun l => l.length) "e" [("A", "a")] .NEVER "/w") ∧
    (materialize (fun l => 10000 * l.length) "e" [("A", "a")] .IF_REQUIRED "/w" =
      materialize (fun l => 10000 * l.length) "e" [("A", "a")] .ALWAYS "/w") ∧
    (materialize (fun l => 10000 * l.length) "e" [("A", "a")] .IF_REQUIRED "/w").file_written
      = true :=
  ⟨((materialize_if_required_threshold (fun l => l.length) "e" [("A", "a")] "/w").1
      (by decide)).1,
   ((materialize_if_required_threshold (fun l => 10000 * l.length) "e" [("A", "a")] "/w").2
      (by decide)).1,
   ((materialize_if_required_threshold (fun l => 10000 * l.length) "e" [("A", "a")] "/w").2
      (by decide)).2.1⟩

/-- C8: whenever `select_file_system` returns normally, the returned
configuration is an element of the input list, possibly (only in the
LEAST_UTILIZED resolution) with its `file_system` field overwritten by
the result of the access-point lookup and every other field unchanged. -/
theorem select_file_system_returns_input_element (env : EfsEnv) (rm : RandomModel)
    (candidates : List FileSystemConfiguration) (strat : FileSystemSelectionStrategy)
    (seed_number : Option String) (prg : Nat) (r : FileSystemConfiguration) (s' : Nat)
    (h : select_file_system env rm candidates strat seed_number prg = .ok (r, s')) :
    ∃ i c, candidates.get? i = some c ∧
      (r = c ∨ (strTruthy c.file_system = false ∧ strTruthy c.access_point = true ∧
        r = { c with file_system := env.apFileSystemId (c.access_point.getD "") })) := by
  by_cases h0 : candidates.length = 0
  · simp [select_file_system, h0] at h
  · by_cases h1 : candidates.length = 1
    · obtain ⟨a, rfl⟩ := List.length_eq_one.mp h1
      simp only [select_file_system, if_neg h0, if_pos h1, List.getD_cons_zero,
        Except.ok.injEq, Prod.mk.injEq] at h
      obtain ⟨rfl, rfl⟩ := h
      exact ⟨0, a, rfl, Or.inl rfl⟩
    · cases strat with
      | RANDOM =>
        simp only [select_file_system, if_neg h0, if_neg h1] at h
        split at h
        next c heq =>
          simp only [Except.ok.injEq, Prod.mk.injEq] at h
          obtain ⟨rfl, rfl⟩ := h
          exact ⟨_, c, heq, Or.inl rfl⟩
        next heq => simp at h
      | LEAST_UTILIZED =>
        simp only [select_file_system, if_neg h0, if_neg h1] at h
        split at h
        next e heq => simp at h
        next resolved fetched heq =>
          split at h
          next hall =>
            split at h
            next hsort => simp at h
            next m tl hsort =>
              simp only [Except.ok.injEq, Prod.mk.injEq] at h
              obtain ⟨rfl, rfl⟩ := h
              have hmem : m ∈ sortByKey (fun c => env.fsUsedBytes (c.file_system.getD ""))
                  (resolved.filter (fun c => c.file_system.isSome)) := by
                rw [hsort]
                exact List.mem_cons_self _ _
              have hmem2 : m ∈ resolved.filter (fun c => c.file_system.isSome) :=
                (List.perm_insertionSort _ _).mem_iff.mp hmem
              have hmem3 : m ∈ resolved := List.mem_of_mem_filter hmem2
              rw [resolveLoop_ok_map env candidates [] resolved fetched heq] at hmem3
              obtain ⟨c, hc, rfl⟩ := List.mem_map.mp hmem3
              obtain ⟨i, hi⟩ := List.get?_of_mem hc
              refine ⟨i, c, hi, ?_⟩
              by_cases hf : strTruthy c.file_system
              · left
                simp [mutateConfig, hf]
              · by_cases ha : strTruthy c.access_point
                · right
                  refine ⟨by simpa using hf, ha, ?_⟩
                  simp [mutateConfig, hf, ha]
                · left
                  simp [mutateConfig, hf, ha]
          next => simp at h

/-- C8 witness: a successful RANDOM selection from a one-element list
returns that element. -/
theorem select_file_system_returns_input_element_witness :
    ∃ i c, [cfgApOnly1].get? i = some c ∧
      (cfgApOnly1 = c ∨ (strTruthy c.file_system = false ∧ strTruthy c.access_point = true ∧
        cfgApOnly1 = { c with
          file_system := envW.apFileSystemId (c.access_point.getD "") })) :=
  select_file_system_returns_input_element envW rmW [cfgApOnly1] .RANDOM none 0 cfgApOnly1 0 rfl

/-- C9: under LEAST_UTILIZED with at least two candidates that all carry
only an access-point id, when every access-point descriptor lacks a
`FileSystemId` the filtered-and-sorted list is empty, and
`select_file_system` fails with `IndexError` (not with the `ValueError`
of the spec's error taxonomy). -/
theorem select_file_system_index_error (env : EfsEnv) (rm : RandomModel)
    (candidates : List FileSystemConfiguration) (seed_number : Option String) (prg : Nat)
    (hlen : 2 ≤ candidates.length)
    (hap : ∀ c ∈ candidates, strTruthy c.file_system = false ∧
      strTruthy c.access_point = true ∧ env.apFileSystemId (c.access_point.getD "") = none) :
    select_file_system env rm candidates .LEAST_UTILIZED seed_number prg =
      .error .indexError := by
  have h0 : ¬ candidates.length = 0 := by omega
  have h1 : ¬ candidates.length = 1 := by omega
  simp only [select_file_system, if_neg h0, if_neg h1]
  rcases hr : resolveLoop env [] candidates with e | ⟨resolved, fetched⟩
  · exfalso
    obtain ⟨-, x, hx, hxf, hxa⟩ := resolveLoop_error_iff_missing env candidates [] e hr
    rw [(hap x hx).2.1] at hxa
    simp at hxa
  · have hmap : resolved = candidates.map (mutateConfig env) :=
      resolveLoop_ok_map env candidates [] resolved fetched hr
    have hnone : ∀ x ∈ resolved, x.file_system = none := by
      intro x hx
      rw [hmap] at hx
      obtain ⟨y, hy, rfl⟩ := List.mem_map.mp hx
      obtain ⟨hyf, hya, hyl⟩ := hap y hy
      simp [mutateConfig, hyf, hya, hyl]
    have hfilter : resolved.filter (fun c => c.file_system.isSome) = [] := by
      rw [List.filter_eq_nil_iff]
      intro x hx
      simp [hnone x hx]
    dsimp only
    rw [hfilter]
    rfl

/-- C9 witness: two access-point-only candidates whose descriptors carry
no `FileSystemId` make `select_file_system` raise `IndexError`. -/
theorem select_file_system_index_error_witness :
    select_file_system envW rmW [cfgApOnly1, cfgApOnly2] .LEAST_UTILIZED none 0 =
      .error .indexError :=
  select_file_system_index_error envW rmW [cfgApOnly1, cfgApOnly2] none 0 (by decide) (by decide)

/-- C1: under LEAST_UTILIZED with at least two candidates, when every
candidate carries or resolves to a (truthy) file-system id,
`select_file_system` returns the candidate whose resolved file system
reports the smallest used-bytes value, and every earlier candidate
reports a strictly larger value — ties are broken in favour of the
first candidate in input order. -/
theorem select_file_system_least_utilized_min (env : EfsEnv) (rm : RandomModel)
    (candidates : List FileSystemConfiguration) (seed_number : Option String) (prg : Nat)
    (hlen : 2 ≤ candidates.length)
    (hres : ∀ c ∈ candidates, strTruthy (mutateConfig env c).file_system = true) :
    ∃ i c, candidates.get? i = some c ∧
      select_file_system env rm candidates .LEAST_UTILIZED seed_number prg =
        .ok (mutateConfig env c, prg) ∧
      (∀ c' ∈ candidates, usedBytesOf env c ≤ usedBytesOf env c') ∧
      (∀ j c', j < i → candidates.get? j = some c' →
        usedBytesOf env c < usedBytesOf env c') := by
  have h0 : ¬ candidates.length = 0 := by omega
  have h1 : ¬ candidates.length = 1 := by omega
  rcases hr : resolveLoop env [] candidates with e | ⟨resolved, fetched⟩
  · exfalso
    obtain ⟨-, x, hx, hxf, hxa⟩ := resolveLoop_error_iff_missing env candidates [] e hr
    have hx' := hres x hx
    simp [mutateConfig, hxf, hxa] at hx'
  · have hmap : resolved = candidates.map (mutateConfig env) :=
      resolveLoop_ok_map env candidates [] resolved fetched hr
    obtain ⟨hacc, hfet⟩ := resolveLoop_fetched env candidates [] resolved fetched hr
    have hkeep : resolved.filter (fun c => c.file_system.isSome) = resolved := by
      rw [List.filter_eq_self]
      intro x hx
      rw [hmap] at hx
      obtain ⟨y, hy, rfl⟩ := List.mem_map.mp hx
      rcases (strTruthy_iff _).mp (hres y hy) with ⟨s, hs, -⟩
      simp [hs]
    have hall : resolved.all (fun c => c.file_system.getD "" ∈ fetched) = true := by
      rw [List.all_eq_true]
      intro x hx
      have hxx := hx
      rw [hmap] at hxx
      obtain ⟨y, hy, rfl⟩ := List.mem_map.mp hxx
      rcases (strTruthy_iff _).mp (hres y hy) with ⟨s, hs, hne⟩
      have : s ∈ fetched := hfet _ hx s hs hne
      simpa [hs] using this
    have hnil : ¬ resolved = [] := by
      rw [hmap]
      intro hcon
      apply h0
      simpa using congrArg List.length hcon
    rcases hmin : firstMinByKey (fun c => env.fsUsedBytes (c.file_system.getD "")) resolved
      with _ | m
    · exact absurd ((firstMinByKey_eq_none _ resolved).mp hmin) hnil
    · have hhead : (sortByKey (fun c => env.fsUsedBytes (c.file_system.getD ""))
          resolved).head? = some m := by
        rw [sortByKey_head?, hmin]
      obtain ⟨i, hget, hminle, hlt⟩ := firstMinByKey_spec _ resolved m hmin
      rw [hmap, List.get?_map] at hget
      rcases hcand : candidates.get? i with _ | c
      · rw [hcand] at hget
        simp at hget
      · rw [hcand] at hget
        have hmc : mutateConfig env c = m := by simpa using hget
        refine ⟨i, c, hcand, ?_, ?_, ?_⟩
        · simp only [select_file_system, if_neg h0, if_neg h1]
          rw [hr]
          dsimp only
          rw [hkeep]
          simp only [hall, if_true]
          rcases hsort : sortByKey (fun c => env.fsUsedBytes (c.file_system.getD ""))
            resolved with _ | ⟨hd, tl⟩
          · rw [hsort] at hhead
            simp at hhead
          · rw [hsort] at hhead
            obtain rfl : hd = m := by simpa using hhead
            rw [hmc, hsort]
        · intro c' hc'
          have hmem : mutateConfig env c' ∈ resolved := by
            rw [hmap]
            exact List.mem_map_of_mem _ hc'
          have hle := hminle _ hmem
          show env.fsUsedBytes ((mutateConfig env c).file_system.getD "") ≤
            env.fsUsedBytes ((mutateConfig env c').file_system.getD "")
          rw [hmc]
          exact hle
        · intro j c' hj hjget
          have hjmem : resolved.get? j = some (mutateConfig env c') := by
            rw [hmap, List.get?_map, hjget]
            rfl
          have hltj := hlt j _ hj hjmem
          show env.fsUsedBytes ((mutateConfig env c).file_system.getD "") <
            env.fsUsedBytes ((mutateConfig env c').file_system.getD "")
          rw [hmc]
          exact hltj

/-- C1 witness: three candidates resolving to used-bytes 2000, 1000,
1000 — the selection returns the second candidate, the first of the two
tied at 1000. -/
theorem select_file_system_least_utilized_min_witness :
    (∃ i c, [cfgA, cfgB, cfgC].get? i = some c ∧
      select_file_system envW rmW [cfgA, cfgB, cfgC] .LEAST_UTILIZED none 0 =
        .ok (mutateConfig envW c, 0) ∧
      (∀ c' ∈ [cfgA, cfgB, cfgC], usedBytesOf envW c ≤ usedBytesOf envW c') ∧
      (∀ j c', j < i → [cfgA, cfgB, cfgC].get? j = some c' →
        usedBytesOf envW c < usedBytesOf envW c')) ∧
    select_file_system envW rmW [cfgA, cfgB, cfgC] .LEAST_UTILIZED none 0 = .ok (cfgB, 0) :=
  ⟨select_file_system_least_utilized_min envW rmW [cfgA, cfgB, cfgC] none 0
      (by decide) (by decide),
   rfl⟩

/-- C6: whenever the volume-selection section of
`PrepareDemandScaffoldingHandler.handle` succeeds, the scratch volume is
mounted read-write, the shared volume read-only and the tmp volume
(when present) read-write, and whenever a selected configuration's
`container_path` is unset (falsy) the default container path of its
role — `/opt/efs/scratch`, `/opt/efs/shared`, `/opt/efs/tmp` — is used
as the mount point. -/
theorem handle_mount_flags_and_defaults (env : EfsEnv) (rm : RandomModel) (env_base : String)
    (request : PrepareDemandScaffoldingRequest) (prg : Nat)
    (sv shv : BatchEFSConfiguration) (tv : Option BatchEFSConfiguration) (s' : Nat)
    (h : handleVolumeConfigurations env rm env_base request prg = .ok ((sv, shv, tv), s')) :
    sv.read_only = false ∧ shv.read_only = true ∧
    (∀ t, tv = some t → t.read_only = false) ∧
    ∃ scfg s1 shcfg s2,
      select_file_system env rm request.file_system_configurations.scratch
        request.file_system_configurations.selection_strategy
        (some request.demand_execution.execution_id) prg = .ok (scfg, s1) ∧
      select_file_system env rm request.file_system_configurations.shared
        request.file_system_configurations.selection_strategy
        (some request.demand_execution.execution_id) s1 = .ok (shcfg, s2) ∧
      (strTruthy scfg.container_path = false →
        sv.mount_point_config.mount_point = "/opt/efs/scratch") ∧
      (strTruthy shcfg.container_path = false →
        shv.mount_point_config.mount_point = "/opt/efs/shared") ∧
      (∀ t, tv = some t → ∃ tcfg s3,
        select_file_system env rm request.file_system_configurations.tmp
          request.file_system_configurations.selection_strategy
          (some request.demand_execution.execution_id) s2 = .ok (tcfg, s3) ∧
        (strTruthy tcfg.container_path = false →
          t.mount_point_config.mount_point = "/opt/efs/tmp")) := by
  simp only [handleVolumeConfigurations] at h
  split at h
  next e heq1 => simp at h
  next scfg prg1 heq1 =>
    split at h
    next e heq2 => simp at h
    next shcfg prg2 heq2 =>
      split at h
      next htmp =>
        simp only [Except.ok.injEq, Prod.mk.injEq] at h
        obtain ⟨⟨rfl, rfl, rfl⟩, rfl⟩ := h
        refine ⟨rfl, rfl, by simp, scfg, prg1, shcfg, prg2, heq1, heq2, ?_, ?_, by simp⟩
        · intro hcp
          simp only [construct_batch_efs_configuration, hcp, Bool.false_eq_true, if_false]
          rfl
        · intro hcp
          simp only [construct_batch_efs_configuration, hcp, Bool.false_eq_true, if_false]
          rfl
      next htmp =>
        split at h
        next e heq3 => simp at h
        next tcfg prg3 heq3 =>
          simp only [Except.ok.injEq, Prod.mk.injEq] at h
          obtain ⟨⟨rfl, rfl, rfl⟩, rfl⟩ := h
          refine ⟨rfl, rfl, ?_, scfg, prg1, shcfg, prg2, heq1, heq2, ?_, ?_, ?_⟩
          · intro t ht
            obtain rfl := Option.some_inj.mp ht
            rfl
          · intro hcp
            simp only [construct_batch_efs_configuration, hcp, Bool.false_eq_true, if_false]
            rfl
          · intro hcp
            simp only [construct_batch_efs_configuration, hcp, Bool.false_eq_true, if_false]
            rfl
          · intro t ht
            obtain rfl := Option.some_inj.mp ht
            refine ⟨tcfg, prg3, heq3, ?_⟩
            intro hcp
            simp only [construct_batch_efs_configuration, hcp, Bool.false_eq_true, if_false]
            rfl

/-- C6 witness: on a concrete request the handler's volume section
succeeds, scratch is read-write and shared read-only. -/
theorem handle_mount_flags_and_defaults_witness :
    ∃ sv shv tv s',
      handleVolumeConfigurations envW rmW "dev" reqW 0 = .ok ((sv, shv, tv), s') ∧
      sv.read_only = false ∧ shv.read_only = true ∧
      (∀ t, tv = some t → t.read_only = false) ∧
      sv.mount_point_config.mount_point = "/opt/efs/scratch" ∧
      shv.mount_point_config.mount_point = "/opt/efs/shared" := by
  refine ⟨_, _, _, _, rfl, ?_⟩
  obtain ⟨h1, h2, h3, -⟩ := handle_mount_flags_and_defaults envW rmW "dev" reqW 0 _ _ _ _ rfl
  exact ⟨h1, h2, h3, rfl, rfl⟩

/-- Characterization of a successful seeded RANDOM selection: the result
sits at `chosenIndex` in the candidate list — an index depending only on
the seed and the list length, not on the incoming generator state. -/
theorem select_random_ok_index (env : EfsEnv) (rm : RandomModel)
    (cfgs : List FileSystemConfiguration) (S : String) (prg : Nat)
    (c : FileSystemConfiguration) (s' : Nat)
    (h : select_file_system env rm cfgs .RANDOM (some S) prg = .ok (c, s')) :
    cfgs.get? (chosenIndex rm S cfgs.length) = some c := by
  by_cases h0 : cfgs.length = 0
  · simp [select_file_system, h0] at h
  · by_cases h1 : cfgs.length = 1
    · obtain ⟨a, rfl⟩ := List.length_eq_one.mp h1
      simp only [select_file_system, if_neg h0, if_pos h1, List.getD_cons_zero,
        Except.ok.injEq, Prod.mk.injEq] at h
      obtain ⟨rfl, rfl⟩ := h
      simp [chosenIndex]
    · simp only [select_file_system, if_neg h0, if_neg h1] at h
      split at h
      next c0 heq =>
        simp only [Except.ok.injEq, Prod.mk.injEq] at h
        obtain ⟨rfl, rfl⟩ := h
        simpa [chosenIndex, h1] using heq
      next => simp at h

/-- C10: in the handler's volume section under RANDOM, the generator is
re-seeded with the execution id before each selection, so when the
scratch and shared candidate lists have the same length the same list
index is chosen for both roles; when the two lists are equal the very
same candidate is selected for both. -/
theorem handle_random_same_index (env : EfsEnv) (rm : RandomModel) (env_base : String)
    (request : PrepareDemandScaffoldingRequest) (prg : Nat)
    (sv shv : BatchEFSConfiguration) (tv : Option BatchEFSConfiguration) (s' : Nat)
    (hstrat : request.file_system_configurations.selection_strategy = .RANDOM)
    (hlen : request.file_system_configurations.scratch.length =
      request.file_system_configurations.shared.length)
    (h : handleVolumeConfigurations env rm env_base request prg = .ok ((sv, shv, tv), s')) :
    ∃ i scfg shcfg s1 s2,
      request.file_system_configurations.scratch.get? i = some scfg ∧
      request.file_system_configurations.shared.get? i = some shcfg ∧
      select_file_system env rm request.file_system_configurations.scratch .RANDOM
        (some request.demand_execution.execution_id) prg = .ok (scfg, s1) ∧
      select_file_system env rm request.file_system_configurations.shared .RANDOM
        (some request.demand_execution.execution_id) s1 = .ok (shcfg, s2) ∧
      (request.file_system_configurations.scratch =
          request.file_system_configurations.shared →
        scfg = shcfg) := by
  simp only [handleVolumeConfigurations] at h
  rw [hstrat] at h
  split at h
  next e heq1 => simp at h
  next scfg prg1 heq1 =>
    split at h
    next e heq2 => simp at h
    next shcfg prg2 heq2 =>
      have hidx1 := select_random_ok_index env rm _ _ prg scfg prg1 heq1
      have hidx2 := select_random_ok_index env rm _ _ prg1 shcfg prg2 heq2
      refine ⟨chosenIndex rm request.demand_execution.execution_id
        request.file_system_configurations.scratch.length,
        scfg, shcfg, prg1, prg2, hidx1, ?_, heq1, heq2, ?_⟩
      · rw [hlen]
        exact hidx2
      · intro heqlists
        rw [heqlists] at hidx1
        rw [hidx2] at hidx1
        exact (Option.some_inj.mp hidx1).symm

/-- C10 witness: on a concrete request whose scratch and shared lists
are the same two-element list, the handler's RANDOM selections pick the
same index, hence the same candidate, for both roles. -/
theorem handle_random_same_index_witness :
    ∃ i scfg shcfg s1 s2,
      reqW2.file_system_configurations.scratch.get? i = some scfg ∧
      reqW2.file_system_configurations.shared.get? i = some shcfg ∧
      select_file_system envW rmW reqW2.file_system_configurations.scratch .RANDOM
        (some reqW2.demand_execution.execution_id) 0 = .ok (scfg, s1) ∧
      select_file_system envW rmW reqW2.file_system_configurations.shared .RANDOM
        (some reqW2.demand_execution.execution_id) s1 = .ok (shcfg, s2) ∧
      (reqW2.file_system_configurations.scratch =
          reqW2.file_system_configurations.shared →
        scfg = shcfg) :=
  handle_random_same_index envW rmW "dev" reqW2 0 _ _ _ _ rfl rfl rfl

end AwsLambdaDemand
